import Mathlib

/-!
Shallow embedding of the credential-coordination layer of the repository
(`src/src/contexts/ContractContext.tsx`): the ledger-facing operations are
modelled as pure Lean functions over explicit state and environment
parameters.  Asynchronous contract calls that can reject are modelled as
`Except Unit` (or `Option`) valued environment functions; the connected
wallet is a `Bool` (provider present) together with an `Option String`
(active account); ledger state that a write mutates is passed and returned
explicitly.
-/

namespace ContractContext

/-- JavaScript's `String.prototype.toLowerCase()` on the addresses and role
strings handled here (ASCII content): characterwise lowercasing. -/
def toLowerCase (s : String) : String :=
  ⟨s.data.map Char.toLower⟩

/-- Error taxonomy of the context functions: the distinct `throw new Error`
sites of `ContractContext.tsx`. -/
inductive CErr where
  | walletNotConnected
  | contractUnavailable
  | notOwner
  | transactionFailed
  deriving Repr, DecidableEq

/-- State of the CertificateNFT ledger that the authorization operations
touch: the recorded `owner()` and the `authorizedInstitutes` mapping. -/
structure LedgerState where
  owner : String
  authorized : String → Bool

/-- Model of `authorizedInstitutes(address)` — the ledger read of an institute's
authorization flag. -/
def readAuthorization (st : LedgerState) (address : String) : Bool :=
  st.authorized address

/-- The ledger effect of a confirmed `authorizeInstitute` /
`revokeInstitute` transaction: point update of the authorization map. -/
def setAuth (st : LedgerState) (address : String) (b : Bool) : LedgerState :=
  { st with authorized := fun a => if a = address then b else st.authorized a }

/-- Model of `authorizeInstitute` (ContractContext.tsx lines 366-379): requires a
connected wallet, reads `owner()`, compares case-insensitively with the
active account, throws before the write on mismatch, otherwise submits
`authorizeInstitute(instituteAddress)` and awaits it. -/
def authorizeInstitute (providerConn : Bool) (account : Option String)
    (st : LedgerState) (instituteAddress : String) : Except CErr LedgerState :=
  match providerConn, account with
  | true, some acct =>
    if toLowerCase st.owner = toLowerCase acct then
      .ok (setAuth st instituteAddress true)
    else
      .error .notOwner
  | _, _ => .error .walletNotConnected

/-- Model of `revokeInstitute` (ContractContext.tsx lines 116-129): same ownership
gate as `authorizeInstitute`, submitting `revokeInstitute(instituteAddress)`
when the active account is the owner. -/
def revokeInstitute (providerConn : Bool) (account : Option String)
    (st : LedgerState) (instituteAddress : String) : Except CErr LedgerState :=
  match providerConn, account with
  | true, some acct =>
    if toLowerCase st.owner = toLowerCase acct then
      .ok (setAuth st instituteAddress false)
    else
      .error .notOwner
  | _, _ => .error .walletNotConnected

/-- Ledger state observed after an operation: an operation that failed
locally left the ledger untouched. -/
def stateAfter (r : Except CErr LedgerState) (st : LedgerState) : LedgerState :=
  match r with
  | .ok st2 => st2
  | .error _ => st

/-- Model of `checkIsOwner` (ContractContext.tsx lines 351-363): false when no
provider is connected, false when the CertificateNFT address is unset
(`getCertificateContract` returns null), false when the `owner()` read
throws, otherwise a case-insensitive comparison of the owner with the
queried address. -/
def checkIsOwner (providerConn : Bool) (nftAddr : String)
    (ownerRead : Except Unit String) (address : String) : Bool :=
  if providerConn = false then false
  else if nftAddr = "" then false
  else
    match ownerRead with
    | .error _ => false
    | .ok owner => toLowerCase owner = toLowerCase address

/-- Outcome of one HTTP gateway attempt, as the fetch sites consume it:
`transportError` is a rejected `fetch`; `httpResult ok body` is a response
with its `response.ok` flag and `some` payload exactly when `response.json()`
parses (and `none` when the body parse throws). -/
inductive GatewayResult (α : Type) where
  | transportError : GatewayResult α
  | httpResult (ok : Bool) (body : Option α) : GatewayResult α
  deriving Repr, DecidableEq

/-- What one guarded gateway attempt yields in `fetchStudentMetadata` /
`getCertificatesByAddress`: a payload only when the response arrived, was
ok, and the body parsed; a transport error, a non-ok status, or a parse
failure all fall into the surrounding catch. -/
def attemptGateway {α : Type} : GatewayResult α → Option α
  | .transportError => none
  | .httpResult ok body => if ok then body else none

/-- The two-gateway catch chain (Pinata then ipfs.io) shared by
`fetchStudentMetadata`, `fetchProviderMetadata` and
`getCertificatesByAddress`: the second gateway is consulted exactly when the
first attempt failed. -/
def resolveWithFallback {α : Type} (g1 g2 : GatewayResult α) : Option α :=
  match attemptGateway g1 with
  | some m => some m
  | none => attemptGateway g2

/-- The student metadata shape of `ContractContext.tsx`. -/
structure StudentMetadata where
  name : String
  email : String
  studentId : String
  deriving Repr, DecidableEq

/-- Model of `fetchStudentMetadata` (ContractContext.tsx lines 429-444): null on an
empty hash, else gateway one with ok-check and JSON parse, falling back to
gateway two, null when both fail.  `g1`, `g2` give each gateway's response
for a hash. -/
def fetchStudentMetadata (metadataHash : String)
    (g1 g2 : String → GatewayResult StudentMetadata) : Option StudentMetadata :=
  if metadataHash = "" then none
  else resolveWithFallback (g1 metadataHash) (g2 metadataHash)

/-- The per-certificate metadata fetch inside `handleSearch`
(CertificateSearch component, lines 645-672 of the concatenated source): a
single ipfs.io query whose parsed body is taken as the metadata without
consulting `response.ok`; null when transport or parse fails; no second
gateway is ever consulted. -/
def handleSearchMetadata {α : Type} (metadataHash : String)
    (gw : String → GatewayResult α) : Option α :=
  match gw metadataHash with
  | .transportError => none
  | .httpResult _ body => body

/-- JavaScript `String.prototype.replace` with a plain-string pattern:
replaces only the first occurrence (here: deletes it), as in
`tokenURI.replace(ipfs scheme, empty)`. -/
def replaceFirst (s pat : String) : String :=
  match s.splitOn pat with
  | [] => s
  | x :: rest => x ++ String.intercalate pat rest

/-- The ledger-core fields `getCertificateDetails(id)` returns. -/
structure CertDetails where
  name : String
  institute : String
  issueDate : Nat
  certificateType : String
  student : String
  deriving Repr, DecidableEq

/-- The certificate entry `getCertificatesByAddress` builds per token id;
the metadata blob is kept opaque (a string). -/
structure Certificate where
  id : Nat
  name : String
  institute : String
  issueDate : Nat
  certificateType : String
  student : String
  tokenURI : String
  metadata : Option String
  deriving Repr, DecidableEq

/-- The entry built for one token id inside `getCertificatesByAddress`:
ledger core fields, tokenURI, and a best-effort two-gateway metadata
resolution of the hash obtained by stripping the first `ipfs://` from the
tokenURI. -/
def certEntry (details : Nat → CertDetails) (uriOf : Nat → String)
    (g1 g2 : String → GatewayResult String) (id : Nat) : Certificate :=
  { id := id
    name := (details id).name
    institute := (details id).institute
    issueDate := (details id).issueDate
    certificateType := (details id).certificateType
    student := (details id).student
    tokenURI := uriOf id
    metadata :=
      resolveWithFallback (g1 (replaceFirst (uriOf id) "ipfs://"))
        (g2 (replaceFirst (uriOf id) "ipfs://")) }

/-- Model of `getCertificatesByAddress` (ContractContext.tsx lines 306-348): throws
when no provider or the CertificateNFT address is unset, otherwise maps
`getStudentCertificates`'s token ids to entries. -/
def getCertificatesByAddress (providerConn : Bool) (nftAddr : String)
    (ids : List Nat) (details : Nat → CertDetails) (uriOf : Nat → String)
    (g1 g2 : String → GatewayResult String) : Except Unit (List Certificate) :=
  if providerConn = false then .error ()
  else if nftAddr = "" then .error ()
  else .ok (ids.map (certEntry details uriOf g1 g2))

/-- The tuple `certificateRequests(id)` returns on the ledger. -/
structure ReqData where
  student : String
  institute : String
  name : String
  message : String
  studentMetadataHash : String
  approved : Bool
  deriving Repr, DecidableEq

/-- The request entry `fetchProviderCertificateRequests` builds. -/
structure CertificateRequest where
  id : Nat
  student : String
  institute : String
  name : String
  message : String
  studentMetadataHash : String
  approved : Bool
  deriving Repr, DecidableEq

/-- The entry built for one request id from its fetched ledger data. -/
def toRequestEntry (requestId : Nat) (r : ReqData) : CertificateRequest :=
  { id := requestId
    student := r.student
    institute := r.institute
    name := r.name
    message := r.message
    studentMetadataHash := r.studentMetadataHash
    approved := r.approved }

/-- The id scan of `fetchProviderCertificateRequests` (lines 394-421): ids
`1..requestCount`, each fetched under its own catch (a failing id yields
null, later filtered out), keeping unapproved requests whose institute
equals the active account case-insensitively.  `fetchReq` is `none` where
`certificateRequests(id)` rejects. -/
def scanCertificateRequests (account : String) (requestCount : Nat)
    (fetchReq : Nat → Option ReqData) : List CertificateRequest :=
  ((List.range requestCount).map (· + 1)).filterMap (fun requestId =>
    match fetchReq requestId with
    | none => none
    | some req =>
      if toLowerCase req.institute = toLowerCase account ∧ req.approved = false then
        some (toRequestEntry requestId req)
      else none)

/-- Model of `fetchProviderCertificateRequests` (lines 382-427) with its outer
guards: an empty list when the wallet is missing, and an empty list when
the signer setup or `requestCounter()` read throws (outer catch). -/
def fetchProviderCertificateRequests (providerConn : Bool)
    (account : Option String) (counterRead : Except Unit Nat)
    (fetchReq : Nat → Option ReqData) : List CertificateRequest :=
  match providerConn, account with
  | true, some acct =>
    match counterRead with
    | .error _ => []
    | .ok n => scanCertificateRequests acct n fetchReq
  | _, _ => []

/-- A registered user as `getAllRegisteredUsers` returns it. -/
structure RegisteredUser where
  address : String
  role : String
  metadataHash : String
  deriving Repr, DecidableEq

/-- The `Promise.all` over `authorizedInstitutes` calls in
`fetchAuthorizedProviders` / `fetchPendingProviders`: the calls carry no
per-item catch, so a single rejection rejects the whole batch. -/
def mapAuth (auth : String → Except Unit Bool) :
    List RegisteredUser → Except Unit (List (RegisteredUser × Bool))
  | [] => .ok []
  | p :: rest =>
    match auth p.address with
    | .error e => .error e
    | .ok b =>
      match mapAuth auth rest with
      | .error e => .error e
      | .ok tail => .ok ((p, b) :: tail)

/-- Model of `fetchAuthorizedProviders` (lines 132-151): empty on no provider
connection, propagates a `getAllRegisteredUsers` failure, empty when the
CertificateNFT address is unset, then batch-checks authorization (no
per-item catch) and keeps the authorized providers. -/
def fetchAuthorizedProviders (providerConn : Bool) (nftAddr : String)
    (allUsers : Except Unit (List RegisteredUser))
    (auth : String → Except Unit Bool) : Except Unit (List RegisteredUser) :=
  if providerConn = false then .ok []
  else
    match allUsers with
    | .error e => .error e
    | .ok users =>
      let provs := users.filter (fun u => toLowerCase u.role == "provider")
      if nftAddr = "" then .ok []
      else
        match mapAuth auth provs with
        | .error e => .error e
        | .ok flagged =>
          .ok ((flagged.filter (fun pb => pb.2)).map (fun pb => pb.1))

/-- Model of `fetchPendingProviders` (lines 231-250): identical to
`fetchAuthorizedProviders` but keeping the unauthorized providers. -/
def fetchPendingProviders (providerConn : Bool) (nftAddr : String)
    (allUsers : Except Unit (List RegisteredUser))
    (auth : String → Except Unit Bool) : Except Unit (List RegisteredUser) :=
  if providerConn = false then .ok []
  else
    match allUsers with
    | .error e => .error e
    | .ok users =>
      let provs := users.filter (fun u => toLowerCase u.role == "provider")
      if nftAddr = "" then .ok []
      else
        match mapAuth auth provs with
        | .error e => .error e
        | .ok flagged =>
          .ok ((flagged.filter (fun pb => !pb.2)).map (fun pb => pb.1))

/-- The match test applied to one student inside `getStudentByStudentId`:
its metadata resolves and its `studentId` equals the searched id
case-insensitively. -/
def studentMatches (fetchMeta : String → String → Option StudentMetadata)
    (studentId : String) (u : RegisteredUser) : Bool :=
  match fetchMeta u.address u.metadataHash with
  | some m => toLowerCase m.studentId == toLowerCase studentId
  | none => false

/-- The for-loop of `getStudentByStudentId` (lines 161-171): first student
whose resolved metadata matches; a student whose metadata does not resolve
is skipped and the scan continues. -/
def findStudent (fetchMeta : String → String → Option StudentMetadata)
    (studentId : String) : List RegisteredUser → Option (String × StudentMetadata)
  | [] => none
  | u :: rest =>
    match fetchMeta u.address u.metadataHash with
    | some m =>
      if toLowerCase m.studentId = toLowerCase studentId then some (u.address, m)
      else findStudent fetchMeta studentId rest
    | none => findStudent fetchMeta studentId rest

/-- Model of `getStudentByStudentId` (lines 154-177): null with no provider, null
when the user enumeration throws (outer catch), otherwise the scan over the
role-student identities. -/
def getStudentByStudentId (providerConn : Bool)
    (allUsers : Except Unit (List RegisteredUser))
    (fetchMeta : String → String → Option StudentMetadata)
    (studentId : String) : Option (String × StudentMetadata) :=
  if providerConn = false then none
  else
    match allUsers with
    | .error _ => none
    | .ok users =>
      findStudent fetchMeta studentId
        (users.filter (fun u => toLowerCase u.role == "student"))

/-- The UserRegistry reads the issuance path uses: `getUser(address)` as a
(role, metadataHash) pair, `isUserRegistered(address)`. -/
structure Registry where
  getUser : String → String × String
  isRegistered : String → Bool

/-- A pending entry of the CertificateNFT request queue. -/
structure PendingRequest where
  student : String
  institute : String
  name : String
  message : String
  studentMetadataHash : String
  approved : Bool
  deriving Repr, DecidableEq

/-- The CertificateNFT request queue. -/
structure CertLedger where
  requests : List PendingRequest
  deriving Repr, DecidableEq

/-- Modelled from the spec: the CertificateNFT contract's
`requestCertificate` entrypoint, whose Solidity source is not under `src/`
(only its ABI artifact is imported).  Per the spec's Issuance Workflow,
`requestIssuance` "requires the caller to already hold a Registered student
identity"; the ledger appends a pending request when the caller is a
registered student and rejects the transaction otherwise. -/
def ledgerRequestCertificate (reg : Registry) (led : CertLedger)
    (caller institute name message hash : String) : Except CErr CertLedger :=
  if reg.isRegistered caller ∧ toLowerCase (reg.getUser caller).1 = "student" then
    .ok { requests := led.requests ++
            [{ student := caller, institute := institute, name := name,
               message := message, studentMetadataHash := hash,
               approved := false }] }
  else .error .transactionFailed

/-- Model of `requestCertificateIssuance` (lines 527-551): throws WalletNotConnected
without provider and account, throws when the CertificateNFT address or the
UserRegistry address is unset, reads the caller's own metadata hash via
`getUser(account)`, then submits `requestCertificate` embedding it. -/
def requestCertificateIssuance (providerConn : Bool) (account : Option String)
    (nftAddr regAddr : String) (reg : Registry) (led : CertLedger)
    (providerAddress certificateName message : String) : Except CErr CertLedger :=
  match providerConn, account with
  | true, some acct =>
    if nftAddr = "" then .error .contractUnavailable
    else if regAddr = "" then .error .contractUnavailable
    else
      ledgerRequestCertificate reg led acct providerAddress certificateName
        message (reg.getUser acct).2
  | _, _ => .error .walletNotConnected

/-- The student registration payload of `registerUser`. -/
structure StudentInput where
  name : String
  email : String
  studentId : String
  deriving Repr, DecidableEq

/-- The provider registration payload of `registerUser`; the `File` is kept
opaque. -/
structure ProviderInput where
  institutionName : String
  accreditationNumber : String
  document : String
  deriving Repr, DecidableEq

/-- The metadata object `registerUser` assembles before uploading. -/
inductive RegMetadata where
  | studentMeta (name email studentId : String)
  | providerMeta (institutionName accreditationNumber documentCid : String)
  deriving Repr, DecidableEq

/-- Observable external effects of `registerUser`, in program order: the
provider-document upload, the metadata upload, and the on-ledger
`registerUser(role, cid)` write. -/
inductive RegEvent where
  | uploadFileEv
  | uploadJSONEv
  | registerWriteEv (role : String) (cid : String)
  deriving Repr, DecidableEq

/-- Error taxonomy of `registerUser`'s throw sites. -/
inductive RegErr where
  | walletNotConnected
  | contractUnavailable
  | invalidInput
  | uploadFailed
  | emptyCid
  | txFailed
  deriving Repr, DecidableEq

/-- The tail of `registerUser` from the metadata upload on (lines 295-302):
upload the metadata JSON, fail if the upload throws or returns no cid, then
submit the ledger write and await it. -/
def registerFinish (role : String) (metadata : RegMetadata)
    (trace : List RegEvent) (uploadJSON : RegMetadata → Except Unit String)
    (txOk : Bool) : Except RegErr Unit × List RegEvent :=
  let trace2 := trace ++ [RegEvent.uploadJSONEv]
  match uploadJSON metadata with
  | .error _ => (.error .uploadFailed, trace2)
  | .ok cid =>
    if cid = "" then (.error .emptyCid, trace2)
    else
      let trace3 := trace2 ++ [RegEvent.registerWriteEv role cid]
      if txOk then (.ok (), trace3) else (.error .txFailed, trace3)

/-- Model of `registerUser` (ContractContext.tsx lines 263-303), instrumented with
the trace of its external effects: wallet and contract-address guards,
role-specific payload validation, provider-document upload, metadata
upload, ledger write.  `uploadFile` maps a document to its cid (or fails);
`uploadJSON` uploads the metadata object; `txOk` is whether the awaited
registration transaction confirms. -/
def registerUser (providerConn : Bool) (account : Option String)
    (regAddr : String) (role : String) (studentData : Option StudentInput)
    (providerData : Option ProviderInput)
    (uploadFile : String → Except Unit String)
    (uploadJSON : RegMetadata → Except Unit String) (txOk : Bool) :
    Except RegErr Unit × List RegEvent :=
  match providerConn, account with
  | true, some _ =>
    if regAddr = "" then (.error .contractUnavailable, [])
    else if role = "student" then
      match studentData with
      | none => (.error .invalidInput, [])
      | some sd =>
        registerFinish role (.studentMeta sd.name sd.email sd.studentId) []
          uploadJSON txOk
    else
      match providerData with
      | none => (.error .invalidInput, [])
      | some pd =>
        match uploadFile pd.document with
        | .error _ => (.error .uploadFailed, [RegEvent.uploadFileEv])
        | .ok docCid =>
          registerFinish role
            (.providerMeta pd.institutionName pd.accreditationNumber docCid)
            [RegEvent.uploadFileEv] uploadJSON txOk
  | _, _ => (.error .walletNotConnected, [])

end ContractContext

namespace ContractContext

/-- C1: invoking `authorizeInstitute` or `revokeInstitute` while the active
account differs case-insensitively from the ledger-recorded owner fails
locally with the NotOwner error, and the target's `authorizedInstitutes`
value is unchanged (no write was submitted). -/
theorem setAuthorization_nonOwner_fails_and_preserves_auth
    (st : LedgerState) (acct instituteAddress : String)
    (h : toLowerCase acct ≠ toLowerCase st.owner) :
    authorizeInstitute true (some acct) st instituteAddress = .error .notOwner ∧
    revokeInstitute true (some acct) st instituteAddress = .error .notOwner ∧
    readAuthorization
      (stateAfter (authorizeInstitute true (some acct) st instituteAddress) st)
      instituteAddress = readAuthorization st instituteAddress ∧
    readAuthorization
      (stateAfter (revokeInstitute true (some acct) st instituteAddress) st)
      instituteAddress = readAuthorization st instituteAddress := by
  have hne : ¬ toLowerCase st.owner = toLowerCase acct := fun hh => h hh.symm
  refine ⟨?_, ?_, ?_, ?_⟩ <;>
    simp [authorizeInstitute, revokeInstitute, stateAfter, hne]

/-- Witness for C1 at a concrete non-owner account and ledger state. -/
theorem setAuthorization_nonOwner_fails_and_preserves_auth_witness :
    authorizeInstitute true (some "0xCD")
      { owner := "0xAB", authorized := fun _ => false } "0xEE"
      = .error .notOwner ∧
    revokeInstitute true (some "0xCD")
      { owner := "0xAB", authorized := fun _ => false } "0xEE"
      = .error .notOwner ∧
    readAuthorization
      (stateAfter (authorizeInstitute true (some "0xCD")
        { owner := "0xAB", authorized := fun _ => false } "0xEE")
        { owner := "0xAB", authorized := fun _ => false }) "0xEE"
      = readAuthorization { owner := "0xAB", authorized := fun _ => false } "0xEE" ∧
    readAuthorization
      (stateAfter (revokeInstitute true (some "0xCD")
        { owner := "0xAB", authorized := fun _ => false } "0xEE")
        { owner := "0xAB", authorized := fun _ => false }) "0xEE"
      = readAuthorization { owner := "0xAB", authorized := fun _ => false } "0xEE" :=
  setAuthorization_nonOwner_fails_and_preserves_auth
    { owner := "0xAB", authorized := fun _ => false } "0xCD" "0xEE" (by decide)

/-- C2: an entry is returned by `fetchProviderCertificateRequests` exactly
when its id lies in `1..requestCount`, its fetch succeeds, its institute
equals the active account case-insensitively, and it is unapproved; a fetch
failure for one id removes only that id and the scan over the remaining ids
continues. -/
theorem fetchProviderCertificateRequests_mem_iff
    (acct : String) (n : Nat) (fetchReq : Nat → Option ReqData)
    (e : CertificateRequest) :
    e ∈ fetchProviderCertificateRequests true (some acct) (.ok n) fetchReq ↔
      (1 ≤ e.id ∧ e.id ≤ n ∧ ∃ r, fetchReq e.id = some r ∧
        toLowerCase r.institute = toLowerCase acct ∧ r.approved = false ∧
        e = toRequestEntry e.id r) := by
  show e ∈ scanCertificateRequests acct n fetchReq ↔ _
  unfold scanCertificateRequests
  rw [List.mem_filterMap]
  constructor
  · rintro ⟨a, ha, hf⟩
    rw [List.mem_map] at ha
    obtain ⟨i, hi, rfl⟩ := ha
    rw [List.mem_range] at hi
    cases hr : fetchReq (i + 1) with
    | none => rw [hr] at hf; cases hf
    | some r =>
      rw [hr] at hf
      dsimp only at hf
      by_cases hc : toLowerCase r.institute = toLowerCase acct ∧ r.approved = false
      · rw [if_pos hc] at hf
        have he := Option.some.inj hf
        subst he
        have hid : (toRequestEntry (i + 1) r).id = i + 1 := rfl
        rw [hid]
        exact ⟨by omega, hi, r, hr, hc.1, hc.2, rfl⟩
      · rw [if_neg hc] at hf; cases hf
  · rintro ⟨h1, h2, r, hr, hinst, happ, he⟩
    refine ⟨e.id, List.mem_map.mpr ⟨e.id - 1, List.mem_range.mpr (by omega), by omega⟩, ?_⟩
    rw [hr]
    dsimp only
    rw [if_pos ⟨hinst, happ⟩, ← he]

/-- C3 counterexample: the metadata fetch inside `handleSearch` returns the
payload of a non-success (e.g. HTTP 500) response from its single gateway
instead of attempting a further gateway before failing, so the caller
observes the failed gateway response directly. -/
theorem handleSearchMetadata_nonOk_counterexample :
    handleSearchMetadata "QmX"
      (fun _ => GatewayResult.httpResult false (some "gatewayErrorBody"))
      = some "gatewayErrorBody" := rfl

/-- C3 amended: in `fetchStudentMetadata` (the two-gateway resolver of the
context layer), whenever the first gateway fails by transport error,
non-success response or unparsable body, the second gateway is attempted,
and a valid JSON payload from it is returned with the first failure never
surfacing; `handleSearch`'s own single-gateway fetch is exempt. -/
theorem fetchStudentMetadata_fallback
    (metadataHash : String) (g1 g2 : String → GatewayResult StudentMetadata)
    (m : StudentMetadata) (hhash : metadataHash ≠ "")
    (hfail : attemptGateway (g1 metadataHash) = none)
    (hok : g2 metadataHash = .httpResult true (some m)) :
    fetchStudentMetadata metadataHash g1 g2 = some m := by
  unfold fetchStudentMetadata
  rw [if_neg hhash]
  unfold resolveWithFallback
  rw [hfail, hok]
  rfl

/-- Witness for C3's amended theorem: gateway one answers HTTP 500, gateway
two serves the payload. -/
theorem fetchStudentMetadata_fallback_witness :
    ("QmX" : String) ≠ "" ∧
    attemptGateway
      ((fun _ : String =>
        (GatewayResult.httpResult false none : GatewayResult StudentMetadata))
        "QmX") = none ∧
    fetchStudentMetadata "QmX"
      (fun _ => .httpResult false none)
      (fun _ => .httpResult true (some ⟨"Ann", "ann@uni.example", "S100"⟩))
      = some ⟨"Ann", "ann@uni.example", "S100"⟩ :=
  ⟨by decide, rfl,
    fetchStudentMetadata_fallback "QmX" _ _ _ (by decide) rfl rfl⟩

/-- C9: `getCertificatesByAddress` returns one entry per token id reported
by `getStudentCertificates`; each entry carries the ledger core fields and
tokenURI, and its metadata is exactly the best-effort two-gateway
resolution — so a metadata fetch failure degrades only that entry to
`metadata = none` and never aborts or shrinks the list. -/
theorem getCertificatesByAddress_one_entry_per_id
    (nftAddr : String) (ids : List Nat) (details : Nat → CertDetails)
    (uriOf : Nat → String) (g1 g2 : String → GatewayResult String)
    (haddr : nftAddr ≠ "") :
    ∃ l : List Certificate,
      getCertificatesByAddress true nftAddr ids details uriOf g1 g2 = .ok l ∧
      l.length = ids.length ∧
      ∀ (i id : Nat), ids[i]? = some id →
        ∃ c : Certificate, l[i]? = some c ∧ c.id = id ∧
          c.name = (details id).name ∧ c.institute = (details id).institute ∧
          c.issueDate = (details id).issueDate ∧
          c.certificateType = (details id).certificateType ∧
          c.student = (details id).student ∧ c.tokenURI = uriOf id ∧
          c.metadata =
            resolveWithFallback (g1 (replaceFirst (uriOf id) "ipfs://"))
              (g2 (replaceFirst (uriOf id) "ipfs://")) ∧
          (attemptGateway (g1 (replaceFirst (uriOf id) "ipfs://")) = none →
            attemptGateway (g2 (replaceFirst (uriOf id) "ipfs://")) = none →
            c.metadata = none) := by
  have hmain : getCertificatesByAddress true nftAddr ids details uriOf g1 g2
      = .ok (ids.map (certEntry details uriOf g1 g2)) := by
    unfold getCertificatesByAddress
    rw [if_neg (by simp), if_neg haddr]
  refine ⟨_, hmain, by simp, ?_⟩
  intro i id hid
  refine ⟨certEntry details uriOf g1 g2 id, ?_, rfl, rfl, rfl, rfl, rfl, rfl,
    rfl, rfl, ?_⟩
  · rw [List.getElem?_map, hid]
    rfl
  · intro h1 h2
    show resolveWithFallback (g1 (replaceFirst (uriOf id) "ipfs://"))
        (g2 (replaceFirst (uriOf id) "ipfs://")) = none
    unfold resolveWithFallback
    rw [h1]
    exact h2

/-- Witness for C9 at one concrete token id whose metadata resolution fails
on both gateways: the entry is still returned, metadata degraded to none. -/
theorem getCertificatesByAddress_one_entry_per_id_witness :
    ("0xNFT" : String) ≠ "" ∧
    ∃ l : List Certificate,
      getCertificatesByAddress true "0xNFT" [7]
        (fun _ => ⟨"Cert", "Inst", 5, "Diploma", "0xBB"⟩)
        (fun _ => "ipfs://Qm1") (fun _ => GatewayResult.transportError)
        (fun _ => GatewayResult.transportError) = .ok l ∧
      l.length = [7].length ∧
      ∀ (i id : Nat), [7][i]? = some id →
        ∃ c : Certificate, l[i]? = some c ∧ c.id = id ∧
          c.name = "Cert" ∧ c.institute = "Inst" ∧
          c.issueDate = 5 ∧ c.certificateType = "Diploma" ∧
          c.student = "0xBB" ∧ c.tokenURI = "ipfs://Qm1" ∧
          c.metadata = resolveWithFallback
            (GatewayResult.transportError : GatewayResult String)
            GatewayResult.transportError ∧
          ((attemptGateway (GatewayResult.transportError : GatewayResult String)
              = none) →
            (attemptGateway (GatewayResult.transportError : GatewayResult String)
              = none) →
            c.metadata = none) :=
  ⟨by decide,
    getCertificatesByAddress_one_entry_per_id "0xNFT" [7]
      (fun _ => ⟨"Cert", "Inst", 5, "Diploma", "0xBB"⟩)
      (fun _ => "ipfs://Qm1") (fun _ => GatewayResult.transportError)
      (fun _ => GatewayResult.transportError) (by decide)⟩

/-- A single rejected `authorizedInstitutes` call inside the classification
batch rejects the whole `Promise.all`. -/
theorem mapAuth_error_of_mem (auth : String → Except Unit Bool)
    (l : List RegisteredUser) (p : RegisteredUser) (hp : p ∈ l)
    (he : auth p.address = .error ()) : mapAuth auth l = .error () := by
  induction l with
  | nil => cases hp
  | cons q rest ih =>
    rcases List.mem_cons.mp hp with rfl | hmem
    · unfold mapAuth
      rw [he]
    · unfold mapAuth
      cases hq : auth q.address with
      | error e => cases e; rfl
      | ok b =>
        rw [ih hmem]

/-- C4 counterexample: with two registered providers where
`authorizedInstitutes` rejects for the second, both classification calls
fail wholesale instead of returning buckets that exclude only the failing
address. -/
theorem classifyProviders_single_failure_counterexample :
    fetchAuthorizedProviders true "0xNFT"
      (.ok [⟨"0xA1", "provider", "h1"⟩, ⟨"0xB2", "provider", "h2"⟩])
      (fun a => if a = "0xA1" then .ok true else .error ())
      = .error () ∧
    fetchPendingProviders true "0xNFT"
      (.ok [⟨"0xA1", "provider", "h1"⟩, ⟨"0xB2", "provider", "h2"⟩])
      (fun a => if a = "0xA1" then .ok true else .error ())
      = .error () := by
  constructor <;> rfl

/-- C4 amended: the classification has no per-address isolation — a failing
`authorizedInstitutes` read for any single registered provider causes both
`fetchAuthorizedProviders` and `fetchPendingProviders` to fail as a whole,
rather than returning buckets that exclude only that address. -/
theorem classifyProviders_single_failure_fails_all
    (nftAddr : String) (users : List RegisteredUser)
    (auth : String → Except Unit Bool) (p : RegisteredUser)
    (haddr : nftAddr ≠ "")
    (hp : p ∈ users.filter (fun u => toLowerCase u.role == "provider"))
    (he : auth p.address = .error ()) :
    fetchAuthorizedProviders true nftAddr (.ok users) auth = .error () ∧
    fetchPendingProviders true nftAddr (.ok users) auth = .error () := by
  have hm := mapAuth_error_of_mem auth _ p hp he
  constructor
  · unfold fetchAuthorizedProviders
    rw [if_neg (by simp)]
    dsimp only
    rw [if_neg haddr, hm]
  · unfold fetchPendingProviders
    rw [if_neg (by simp)]
    dsimp only
    rw [if_neg haddr, hm]

/-- Witness for C4's amended theorem at a concrete two-provider registry
where the second authorization read fails. -/
theorem classifyProviders_single_failure_fails_all_witness :
    fetchAuthorizedProviders true "0xNFT2"
      (.ok [⟨"0xA1", "provider", "h1"⟩, ⟨"0xB2", "provider", "h2"⟩])
      (fun a => if a = "0xA1" then .ok true else .error ())
      = .error () ∧
    fetchPendingProviders true "0xNFT2"
      (.ok [⟨"0xA1", "provider", "h1"⟩, ⟨"0xB2", "provider", "h2"⟩])
      (fun a => if a = "0xA1" then .ok true else .error ())
      = .error () :=
  classifyProviders_single_failure_fails_all "0xNFT2"
    [⟨"0xA1", "provider", "h1"⟩, ⟨"0xB2", "provider", "h2"⟩]
    (fun a => if a = "0xA1" then .ok true else .error ())
    ⟨"0xB2", "provider", "h2"⟩ (by decide) (by decide) rfl

/-- C10: `checkIsOwner` is a total Boolean function, returning false when no
provider is connected, when the CertificateNFT contract address is unset,
and when the `owner()` read fails — indistinguishable from "not the
owner". -/
theorem checkIsOwner_total_false_on_failure
    (nftAddr address a : String) (ownerRead : Except Unit String) (e : Unit) :
    checkIsOwner false nftAddr ownerRead address = false ∧
    checkIsOwner true "" ownerRead address = false ∧
    checkIsOwner true a (.error e) address = false := by
  refine ⟨rfl, rfl, ?_⟩
  by_cases ha : a = "" <;> simp [checkIsOwner, ha]

end ContractContext

namespace ContractContext

/-- C5: `requestCertificateIssuance` fails with WalletNotConnected when the
provider or the active account is missing; and any successful submission
appends exactly one pending request whose `studentMetadataHash` is the
pointer read via `getUser` on the caller's own account — possible only for
a caller holding a Registered student identity (ledger entrypoint modelled
from the spec). -/
theorem requestCertificateIssuance_spec
    (providerConn : Bool) (account : Option String) (nftAddr regAddr : String)
    (reg : Registry) (led led2 : CertLedger) (pa cn msg : String) :
    requestCertificateIssuance false account nftAddr regAddr reg led pa cn msg
      = .error .walletNotConnected ∧
    requestCertificateIssuance providerConn none nftAddr regAddr reg led pa cn
      msg = .error .walletNotConnected ∧
    (∀ acct, requestCertificateIssuance true (some acct) nftAddr regAddr reg
        led pa cn msg = .ok led2 →
      (reg.isRegistered acct = true ∧
        toLowerCase (reg.getUser acct).1 = "student") ∧
      led2.requests = led.requests ++
        [{ student := acct, institute := pa, name := cn, message := msg,
           studentMetadataHash := (reg.getUser acct).2, approved := false }]) := by
  refine ⟨?_, ?_, ?_⟩
  · cases account <;> rfl
  · cases providerConn <;> rfl
  · intro acct h
    unfold requestCertificateIssuance ledgerRequestCertificate at h
    dsimp only at h
    split_ifs at h with h1 h2 hcond
    exact ⟨⟨hcond.1, hcond.2⟩, by rw [← Except.ok.inj h]⟩

/-- Witness for C5 at a concrete registered student issuing a request. -/
theorem requestCertificateIssuance_spec_witness :
    requestCertificateIssuance true (some "0xBB") "0xN" "0xR"
      ⟨fun _ => ("student", "QmHash"), fun _ => true⟩ ⟨[]⟩
      "0xAA" "CertName" "hello"
      = .ok ⟨[⟨"0xBB", "0xAA", "CertName", "hello", "QmHash", false⟩]⟩ ∧
    ((⟨fun _ => ("student", "QmHash"), fun _ => true⟩ : Registry).isRegistered
        "0xBB" = true ∧
      toLowerCase ((⟨fun _ => ("student", "QmHash"),
        fun _ => true⟩ : Registry).getUser "0xBB").1 = "student") ∧
    (⟨[⟨"0xBB", "0xAA", "CertName", "hello", "QmHash", false⟩]⟩ :
        CertLedger).requests
      = (⟨[]⟩ : CertLedger).requests ++
        [⟨"0xBB", "0xAA", "CertName", "hello", "QmHash", false⟩] :=
  ⟨rfl,
    (requestCertificateIssuance_spec true (some "0xBB") "0xN" "0xR"
      ⟨fun _ => ("student", "QmHash"), fun _ => true⟩ ⟨[]⟩
      ⟨[⟨"0xBB", "0xAA", "CertName", "hello", "QmHash", false⟩]⟩
      "0xAA" "CertName" "hello").2.2 "0xBB" rfl⟩

/-- C7 counterexample: failures are swallowed into empty success results —
`fetchProviderCertificateRequests` returns the empty list when the
`requestCounter` read fails, `getStudentByStudentId` returns null when the
user enumeration fails, and `fetchPendingProviders` returns an empty
success when no provider is connected. -/
theorem emptySuccess_on_failure_counterexample :
    fetchProviderCertificateRequests true (some "0xAA") (.error ())
      (fun _ => none) = [] ∧
    getStudentByStudentId true (.error ()) (fun _ _ => none) "S100" = none ∧
    fetchPendingProviders false "0xNFT" (.ok []) (fun _ => .ok true)
      = .ok [] :=
  ⟨rfl, rfl, rfl⟩

/-- C7 amended: the read-path operations swallow unavailable-provider and
failed-enumeration conditions into empty success results rather than a
classified error: `fetchProviderCertificateRequests` yields the empty list
on a missing wallet or a failed `requestCounter` read,
`getStudentByStudentId` yields null on a missing provider or a failed user
enumeration, and the provider classifications yield an empty success on a
missing provider. -/
theorem emptySuccess_on_failure
    (acct sid nftAddr : String) (account : Option String) (e : Unit)
    (counterRead : Except Unit Nat) (fetchReq : Nat → Option ReqData)
    (fetchMeta : String → String → Option StudentMetadata)
    (allUsers : Except Unit (List RegisteredUser))
    (auth : String → Except Unit Bool) :
    fetchProviderCertificateRequests true (some acct) (.error e) fetchReq
      = [] ∧
    fetchProviderCertificateRequests false account counterRead fetchReq = [] ∧
    getStudentByStudentId true (.error e) fetchMeta sid = none ∧
    getStudentByStudentId false allUsers fetchMeta sid = none ∧
    fetchPendingProviders false nftAddr allUsers auth = .ok [] ∧
    fetchAuthorizedProviders false nftAddr allUsers auth = .ok [] := by
  refine ⟨rfl, ?_, rfl, rfl, rfl, rfl⟩
  cases account <;> rfl

end ContractContext

namespace ContractContext

/-- The scan loop returns nothing exactly when no scanned student
matches. -/
theorem findStudent_eq_none_iff
    (fetchMeta : String → String → Option StudentMetadata) (sid : String)
    (l : List RegisteredUser) :
    findStudent fetchMeta sid l = none ↔
      ∀ u ∈ l, studentMatches fetchMeta sid u = false := by
  induction l with
  | nil => simp [findStudent]
  | cons u rest ih =>
    unfold findStudent
    cases hm : fetchMeta u.address u.metadataHash with
    | none =>
      simp only [ih, List.mem_cons]
      constructor
      · intro hall v hv
        rcases hv with rfl | hv2
        · simp [studentMatches, hm]
        · exact hall v hv2
      · intro hall v hv2
        exact hall v (Or.inr hv2)
    | some m =>
      dsimp only
      by_cases hid : toLowerCase m.studentId = toLowerCase sid
      · rw [if_pos hid]
        simp only [List.mem_cons]
        constructor
        · intro hcontra
          exact absurd hcontra (by simp)
        · intro hall
          have := hall u (Or.inl rfl)
          rw [studentMatches, hm] at this
          simp [hid] at this
      · rw [if_neg hid]
        simp only [ih, List.mem_cons]
        constructor
        · intro hall v hv
          rcases hv with rfl | hv2
          · simp [studentMatches, hm, hid]
          · exact hall v hv2
        · intro hall v hv2
          exact hall v (Or.inr hv2)

/-- A returned pair comes from the first matching student of the scanned
list: everything before it fails to match. -/
theorem findStudent_eq_some
    (fetchMeta : String → String → Option StudentMetadata) (sid : String)
    (l : List RegisteredUser) (a : String) (m : StudentMetadata)
    (h : findStudent fetchMeta sid l = some (a, m)) :
    ∃ l1 u l2, l = l1 ++ u :: l2 ∧ u.address = a ∧
      fetchMeta u.address u.metadataHash = some m ∧
      toLowerCase m.studentId = toLowerCase sid ∧
      ∀ v ∈ l1, studentMatches fetchMeta sid v = false := by
  induction l with
  | nil => simp [findStudent] at h
  | cons u rest ih =>
    unfold findStudent at h
    cases hm : fetchMeta u.address u.metadataHash with
    | none =>
      rw [hm] at h
      obtain ⟨l1, w, l2, hl, ha, hf, hsid, hpre⟩ := ih h
      refine ⟨u :: l1, w, l2, by rw [hl]; rfl, ha, hf, hsid, ?_⟩
      intro v hv
      rcases List.mem_cons.mp hv with rfl | hv2
      · simp [studentMatches, hm]
      · exact hpre v hv2
    | some m2 =>
      rw [hm] at h
      dsimp only at h
      by_cases hid : toLowerCase m2.studentId = toLowerCase sid
      · rw [if_pos hid] at h
        have hp := Option.some.inj h
        injection hp with h1 h2
        subst h1
        subst h2
        exact ⟨[], u, rest, rfl, rfl, hm, hid, by simp⟩
      · rw [if_neg hid] at h
        obtain ⟨l1, w, l2, hl, ha, hf, hsid, hpre⟩ := ih h
        refine ⟨u :: l1, w, l2, by rw [hl]; rfl, ha, hf, hsid, ?_⟩
        intro v hv
        rcases List.mem_cons.mp hv with rfl | hv2
        · simp [studentMatches, hm, hid]
        · exact hpre v hv2

/-- C8: `getStudentByStudentId` scans exactly the role-student identities
in enumeration order, resolving each one's metadata and comparing the
`studentId` field case-insensitively: it returns null iff no scanned
student matches, and a returned pair is the first matching student — its
address and resolved metadata, with every earlier student failing to
match. -/
theorem getStudentByStudentId_first_match (users : List RegisteredUser)
    (fetchMeta : String → String → Option StudentMetadata) (sid : String) :
    (getStudentByStudentId true (.ok users) fetchMeta sid = none ↔
      ∀ u ∈ users.filter (fun u => toLowerCase u.role == "student"),
        studentMatches fetchMeta sid u = false) ∧
    (∀ a m, getStudentByStudentId true (.ok users) fetchMeta sid
        = some (a, m) →
      ∃ l1 u l2,
        users.filter (fun u => toLowerCase u.role == "student")
          = l1 ++ u :: l2 ∧
        u.address = a ∧ fetchMeta u.address u.metadataHash = some m ∧
        toLowerCase m.studentId = toLowerCase sid ∧
        ∀ v ∈ l1, studentMatches fetchMeta sid v = false) := by
  constructor
  · exact findStudent_eq_none_iff fetchMeta sid _
  · intro a m h
    exact findStudent_eq_some fetchMeta sid _ a m h

/-- Witness for C8: three registered students where only the second one's
resolved metadata carries the searched id (up to case). -/
theorem getStudentByStudentId_first_match_witness :
    getStudentByStudentId true
      (.ok [⟨"0xS1", "student", "h1"⟩, ⟨"0xS2", "student", "h2"⟩,
            ⟨"0xS3", "student", "h3"⟩])
      (fun addr _ => if addr = "0xS2" then some ⟨"Bob", "bob@x", "S100"⟩
        else some ⟨"Al", "al@x", "S999"⟩) "s100"
      = some ("0xS2", ⟨"Bob", "bob@x", "S100"⟩) ∧
    ∃ l1 u l2,
      ([⟨"0xS1", "student", "h1"⟩, ⟨"0xS2", "student", "h2"⟩,
        ⟨"0xS3", "student", "h3"⟩] : List RegisteredUser).filter
          (fun u => toLowerCase u.role == "student")
        = l1 ++ u :: l2 ∧
      u.address = "0xS2" ∧
      (fun addr _ => if addr = "0xS2" then some ⟨"Bob", "bob@x", "S100"⟩
        else some (⟨"Al", "al@x", "S999"⟩ : StudentMetadata))
        u.address u.metadataHash = some ⟨"Bob", "bob@x", "S100"⟩ ∧
      toLowerCase "S100" = toLowerCase "s100" ∧
      ∀ v ∈ l1,
        studentMatches
          (fun addr _ => if addr = "0xS2" then some ⟨"Bob", "bob@x", "S100"⟩
            else some ⟨"Al", "al@x", "S999"⟩) "s100" v = false :=
  ⟨rfl,
    (getStudentByStudentId_first_match
      [⟨"0xS1", "student", "h1"⟩, ⟨"0xS2", "student", "h2"⟩,
       ⟨"0xS3", "student", "h3"⟩]
      (fun addr _ => if addr = "0xS2" then some ⟨"Bob", "bob@x", "S100"⟩
        else some ⟨"Al", "al@x", "S999"⟩) "s100").2
      "0xS2" ⟨"Bob", "bob@x", "S100"⟩ rfl⟩

end ContractContext

namespace ContractContext

/-- C6: `registerUser` with a missing role-specific payload fails with
InvalidInput with an empty effect trace (no upload, no ledger write); and
every failing content upload step — the provider document upload throwing,
or the metadata upload throwing or returning no content identifier —
aborts with an error whose trace contains no `registerUser(role, cid)`
ledger write, so no partial registration is ever committed on-chain. -/
theorem registerUser_upload_failure_aborts_before_write
    (a regAddr role : String) (sd : StudentInput) (pd : ProviderInput)
    (studentData : Option StudentInput) (providerData : Option ProviderInput)
    (uploadFile : String → Except Unit String)
    (uploadJSON : RegMetadata → Except Unit String) (txOk : Bool)
    (hreg : regAddr ≠ "") :
    (registerUser true (some a) regAddr "student" none providerData uploadFile
        uploadJSON txOk = (.error .invalidInput, [])) ∧
    (role ≠ "student" →
      registerUser true (some a) regAddr role studentData none uploadFile
        uploadJSON txOk = (.error .invalidInput, [])) ∧
    (uploadJSON (.studentMeta sd.name sd.email sd.studentId) = .error () →
      registerUser true (some a) regAddr "student" (some sd) providerData
        uploadFile uploadJSON txOk
        = (.error .uploadFailed, [.uploadJSONEv])) ∧
    (uploadJSON (.studentMeta sd.name sd.email sd.studentId) = .ok "" →
      registerUser true (some a) regAddr "student" (some sd) providerData
        uploadFile uploadJSON txOk = (.error .emptyCid, [.uploadJSONEv])) ∧
    (role ≠ "student" → uploadFile pd.document = .error () →
      registerUser true (some a) regAddr role studentData (some pd) uploadFile
        uploadJSON txOk = (.error .uploadFailed, [.uploadFileEv])) ∧
    (∀ docCid, role ≠ "student" → uploadFile pd.document = .ok docCid →
      uploadJSON (.providerMeta pd.institutionName pd.accreditationNumber
        docCid) = .error () →
      registerUser true (some a) regAddr role studentData (some pd) uploadFile
        uploadJSON txOk
        = (.error .uploadFailed, [.uploadFileEv, .uploadJSONEv])) ∧
    (∀ docCid, role ≠ "student" → uploadFile pd.document = .ok docCid →
      uploadJSON (.providerMeta pd.institutionName pd.accreditationNumber
        docCid) = .ok "" →
      registerUser true (some a) regAddr role studentData (some pd) uploadFile
        uploadJSON txOk
        = (.error .emptyCid, [.uploadFileEv, .uploadJSONEv])) := by
  refine ⟨?_, ?_, ?_, ?_, ?_, ?_, ?_⟩
  · simp [registerUser, hreg]
  · intro hrole
    simp [registerUser, hreg, hrole]
  · intro hup
    simp [registerUser, registerFinish, hreg, hup]
  · intro hup
    simp [registerUser, registerFinish, hreg, hup]
  · intro hrole hup
    simp [registerUser, hreg, hrole, hup]
  · intro docCid hrole hfile hup
    simp [registerUser, registerFinish, hreg, hrole, hfile, hup]
  · intro docCid hrole hfile hup
    simp [registerUser, registerFinish, hreg, hrole, hfile, hup]

/-- Witness for C6 at a concrete provider registration whose document
upload fails, plus a student registration whose metadata upload fails. -/
theorem registerUser_upload_failure_aborts_before_write_witness :
    registerUser true (some "0xU") "0xR" "student" none none
      (fun _ => .error ()) (fun _ => .error ()) true
      = (.error .invalidInput, []) ∧
    registerUser true (some "0xU") "0xR" "student"
      (some ⟨"Nina", "nina@x", "S7"⟩) none
      (fun _ => .error ()) (fun _ => .error ()) true
      = (.error .uploadFailed, [.uploadJSONEv]) ∧
    registerUser true (some "0xU") "0xR" "provider" none
      (some ⟨"Inst", "Acc", "doc"⟩)
      (fun _ => .error ()) (fun _ => .error ()) true
      = (.error .uploadFailed, [.uploadFileEv]) := by
  have h := registerUser_upload_failure_aborts_before_write "0xU" "0xR"
    "provider" ⟨"Nina", "nina@x", "S7"⟩ ⟨"Inst", "Acc", "doc"⟩ none none
    (fun _ => .error ()) (fun _ => .error ()) true (by decide)
  exact ⟨h.1, h.2.2.1 rfl, h.2.2.2.2.1 (by decide) rfl⟩

end ContractContext
